import Mathlib

/-!
Verification development for the F1 proxy/aggregator server (`server.js`).

The server is embedded shallowly: parsed JSON documents are an inductive
`Json` type, JavaScript property access (which throws a TypeError on a
nullish receiver) is `jsGet` returning `Except`, truthiness and the
`x || null` defaulting idiom are modelled explicitly, and `res.json`
serialisation (which drops keys whose value is `undefined`) is `mkObj`.
Each HTTP handler becomes a total function from the year token and the
upstream fetch outcomes to the HTTP response it sends.
-/


/-- A parsed JSON value. `undefined` is not a JSON value; it is represented
by `Option.none` at use sites (absent object fields, short-circuited
optional chains). -/
inductive Json where
  | null
  | bool (b : Bool)
  | num (n : Int)
  | str (s : String)
  | arr (elems : List Json)
  | obj (fields : List (String × Json))

/-- Field lookup in a parsed JSON object. Objects produced by `JSON.parse`
have unique keys, so first-match lookup agrees with JS semantics. -/
def lookupField : List (String × Json) → String → Option Json
  | [], _ => none
  | (k, v) :: rest, key => if k = key then some v else lookupField rest key

/-- JS property access `v.k`. The receiver `none` models `undefined`.
Accessing a property of `undefined` or `null` throws a TypeError (the
`Except.error` case); property access on other primitives yields
`undefined`. -/
def jsGet (v : Option Json) (k : String) : Except String (Option Json) :=
  match v with
  | none => .error ("TypeError: cannot read properties of undefined (reading " ++ k ++ ")")
  | some .null => .error ("TypeError: cannot read properties of null (reading " ++ k ++ ")")
  | some (.obj fs) => .ok (lookupField fs k)
  | some _ => .ok none

/-- JS optional chaining `v?.k`: a nullish receiver short-circuits to
`undefined` instead of throwing. -/
def optChain (v : Option Json) (k : String) : Option Json :=
  match v with
  | none => none
  | some .null => none
  | some (.obj fs) => lookupField fs k
  | some _ => none

/-- JS truthiness of a value (`none` is `undefined`). -/
def truthy : Option Json → Bool
  | none => false
  | some .null => false
  | some (.bool b) => b
  | some (.num n) => decide (n ≠ 0)
  | some (.str s) => decide (s ≠ "")
  | some (.arr _) => true
  | some (.obj _) => true

/-- The `x || null` defaulting idiom: a truthy value passes through,
anything falsy becomes an explicit JSON `null`. -/
def jsOrNull (v : Option Json) : Json :=
  if truthy v then v.getD Json.null else Json.null

/-- Build the serialised form of a JS object literal: `res.json` uses
`JSON.stringify`, which drops keys whose value is `undefined` (`none`). -/
def dropAbsent : List (String × Option Json) → List (String × Json)
  | [] => []
  | (_, none) :: rest => dropAbsent rest
  | (k, some v) :: rest => (k, v) :: dropAbsent rest

def mkObj (fields : List (String × Option Json)) : Json :=
  Json.obj (dropAbsent fields)

/-- One step of path navigation: a key read that yields `none` on
non-objects and missing keys. -/
def getStep (o : Option Json) (k : String) : Option Json :=
  match o with
  | some (Json.obj fs) => lookupField fs k
  | _ => none

/-- Navigate a path of object keys inside a serialised JSON body. -/
def getPath (j : Json) (path : List String) : Option Json :=
  path.foldl getStep (some j)

/-- Calling `.map` on a JS value: only arrays have a callable `map`;
on anything else (including `undefined` and `null`) the call throws. -/
def asArray (v : Option Json) : Except String (List Json) :=
  match v with
  | some (.arr xs) => .ok xs
  | _ => .error "TypeError: map is not a function"

/-- JS `Array.prototype.map` with a callback that can throw: elements are
processed left to right and the first exception aborts the whole map. -/
def jsMapThrow (f : Json → Except String Json) : List Json → Except String (List Json)
  | [] => .ok []
  | x :: xs => do
    let y ← f x
    let ys ← jsMapThrow f xs
    pure (y :: ys)

/-- ASCII digit test on a character code, mirroring the regex class `\d`. -/
def isDigitCode (n : Nat) : Bool := decide (48 ≤ n ∧ n ≤ 57)

/-- JS whitespace skipped by `parseInt` (space, tab, LF, CR, FF, VT). -/
def isJsWhitespace (c : Char) : Bool :=
  decide (c.toNat = 32 ∨ c.toNat = 9 ∨ c.toNat = 10 ∨ c.toNat = 13 ∨ c.toNat = 12 ∨ c.toNat = 11)

def digitVal (c : Char) : Nat := c.toNat - 48

/-- Value of the longest digit run at the head of the character list;
`none` when there is no digit (`parseInt` yields `NaN`). -/
def leadingDigitsVal (cs : List Char) : Option Nat :=
  let ds := cs.takeWhile (fun c => isDigitCode c.toNat)
  if ds.isEmpty then none
  else some (ds.foldl (fun a c => a * 10 + digitVal c) 0)

/-- `parseInt(s, 10)`: skip leading whitespace, optional sign, then the
longest run of decimal digits; `none` models `NaN`. -/
def parseIntChars (cs : List Char) : Option Int :=
  match cs.dropWhile isJsWhitespace with
  | [] => none
  | c :: rest =>
    if c.toNat == 45 then (leadingDigitsVal rest).map (fun n => -(n : Int))
    else if c.toNat == 43 then (leadingDigitsVal rest).map (fun n => (n : Int))
    else (leadingDigitsVal (c :: rest)).map (fun n => (n : Int))

def jsParseInt (s : String) : Option Int := parseIntChars s.toList

/-- The regex test `/^\d{4}$/.test(s)`: exactly four ASCII digits. -/
def fourDigitsChars (cs : List Char) : Bool :=
  cs.length == 4 && cs.all (fun c => isDigitCode c.toNat)

def regexFourDigits (s : String) : Bool := fourDigitsChars s.toList

/-- Integer value of a (four-)digit string, for stating the validator
characterisation. -/
def fourDigitVal (s : String) : Int :=
  Int.ofNat (s.toList.foldl (fun a c => a * 10 + digitVal c) 0)

-- Constants from the top of server.js. The implicit "current calendar
-- year" (`new Date().getFullYear()`) is an explicit parameter `cy`.
def OPENF1_MIN_YEAR : Int := 2023

def F1_MIN_YEAR : Int := 1950

def F1_MAX_YEAR (cy : Int) : Int := cy + 1

structure Validation where
  valid : Bool
  error : Option String

def invalidFormatMsg : String := "Ano invalido. Use um ano de 4 digitos ou \"current\"."

def rangeMsg (cy : Int) : String :=
  "Ano deve estar entre " ++ toString F1_MIN_YEAR ++ " e " ++ toString (F1_MAX_YEAR cy) ++ "."

/-- `validateYear` from server.js, parameterised by the current calendar
year `cy`. -/
def validateYear (cy : Int) (year : String) : Validation :=
  if year = "current" then ⟨true, none⟩
  else
    match jsParseInt year with
    | none => ⟨false, some invalidFormatMsg⟩
    | some yearNum =>
      if regexFourDigits year = false then ⟨false, some invalidFormatMsg⟩
      else if yearNum < F1_MIN_YEAR ∨ yearNum > F1_MAX_YEAR cy then ⟨false, some (rangeMsg cy)⟩
      else ⟨true, none⟩

-- ### Upstream fetches and HTTP responses
/-- Outcome of `await fetch(url)`: either a transport-level failure (the
promise rejects) or an HTTP response with a status code and a body;
`body = none` means a later `await response.json()` would throw a parse
error. -/
inductive Fetch where
  | failure
  | response (status : Nat) (body : Option Json)

/-- `Response.ok`: status in the 2xx range. -/
def statusOk (s : Nat) : Bool := decide (200 ≤ s ∧ s ≤ 299)

structure HttpResponse where
  status : Nat
  body : Json

/-- Body of the generic 500 response produced by each endpoint's `catch`. -/
def internalErrorBody (msg : String) : Json :=
  Json.obj [("error", Json.str "Erro interno do servidor"), ("message", Json.str msg)]

/-- URL-unreserved characters that `encodeURIComponent` leaves intact. -/
def isUnreservedCode (n : Nat) : Bool :=
  decide ((65 ≤ n ∧ n ≤ 90) ∨ (97 ≤ n ∧ n ≤ 122) ∨ (48 ≤ n ∧ n ≤ 57) ∨
    n = 45 ∨ n = 95 ∨ n = 46 ∨ n = 33 ∨ n = 126 ∨ n = 42 ∨ n = 39 ∨ n = 40 ∨ n = 41)

def hexDigitChar (n : Nat) : Char :=
  if n < 10 then Char.ofNat (48 + n) else Char.ofNat (55 + n)

def percentByte (b : UInt8) : String :=
  String.mk ['%', hexDigitChar (b.toNat / 16), hexDigitChar (b.toNat % 16)]

def encodeURIComponent (s : String) : String :=
  s.toList.foldl (fun acc c =>
    if isUnreservedCode c.toNat then acc.push c
    else acc ++ String.join (((String.toUTF8 (String.singleton c)).toList).map percentByte)) ""

def ergastCalendarUrl (year : String) : String :=
  "https://ergast.com/api/f1/" ++ encodeURIComponent year ++ ".json"

/-- The resolved year used for the OpenF1 gating decision:
`year === "current" ? currentYear : parseInt(year, 10)`; `none` is `NaN`. -/
def resolvedYear (cy : Int) (year : String) : Option Int :=
  if year = "current" then some cy else jsParseInt year

/-- The gating test `requestedYear >= OPENF1_MIN_YEAR` (`NaN` compares
false). -/
def openf1Gate (cy : Int) (year : String) : Bool :=
  match resolvedYear cy year with
  | some n => decide (n ≥ OPENF1_MIN_YEAR)
  | none => false

def jsNumString (v : Option Int) : String :=
  match v with
  | some n => toString n
  | none => "NaN"

def openf1MeetingsUrl (cy : Int) (year : String) : String :=
  "https://api.openf1.org/v1/meetings?year=" ++ jsNumString (resolvedYear cy year)

/-- Value of `openf1Data` after the guarded optional fetch: any failure
(transport error, non-2xx status, JSON parse error) leaves it `null`
because of the inner try/catch and the `if (openf1Response.ok)` guard. -/
def openf1Result (f : Fetch) : Json :=
  match f with
  | .failure => Json.null
  | .response status body =>
    if statusOk status then
      match body with
      | some j => j
      | none => Json.null
    else Json.null

/-- The optional fetch fails in one of the three ways the spec lists. -/
def optionalFetchFails (f : Fetch) : Bool :=
  match f with
  | .failure => true
  | .response status body =>
    if statusOk status then
      match body with
      | some _ => false
      | none => true
    else true

-- ### Calendar endpoint (GET /api/calendar/:year)
/-- The condition `!mrData.RaceTable || !mrData.RaceTable.Races` guarding
the 404 return; the property accesses can throw when `mrData` is nullish. -/
def noRacesCond (mrData : Option Json) : Except String Bool := do
  let rt ← jsGet mrData "RaceTable"
  if truthy rt then
    let rv ← jsGet rt "Races"
    pure (!truthy rv)
  else
    pure true

/-- Re-reading `mrData.RaceTable.Races` for the `.map` call. -/
def racesArrOf (mrData : Option Json) : Except String (List Json) := do
  let rt ← jsGet mrData "RaceTable"
  let rv ← jsGet rt "Races"
  asArray rv

/-- Shaping of one upstream race record (the callback of
`mrData.RaceTable.Races.map`). Optional fields use `x || null`; the
`Circuit` and `Location` accesses are unguarded and throw when absent. -/
def shapeRace (race : Json) : Except String Json := do
  let seasonV ← jsGet (some race) "season"
  let roundV ← jsGet (some race) "round"
  let urlV ← jsGet (some race) "url"
  let raceNameV ← jsGet (some race) "raceName"
  let dateV ← jsGet (some race) "date"
  let timeV ← jsGet (some race) "time"
  let circuitV ← jsGet (some race) "Circuit"
  let circuitIdV ← jsGet circuitV "circuitId"
  let circuitUrlV ← jsGet circuitV "url"
  let circuitNameV ← jsGet circuitV "circuitName"
  let locationV ← jsGet circuitV "Location"
  let latV ← jsGet locationV "lat"
  let longV ← jsGet locationV "long"
  let localityV ← jsGet locationV "locality"
  let countryV ← jsGet locationV "country"
  let fpV ← jsGet (some race) "FirstPractice"
  let spV ← jsGet (some race) "SecondPractice"
  let tpV ← jsGet (some race) "ThirdPractice"
  let qV ← jsGet (some race) "Qualifying"
  let sprintV ← jsGet (some race) "Sprint"
  pure (mkObj [
    ("season", seasonV), ("round", roundV), ("url", urlV),
    ("raceName", raceNameV), ("date", dateV),
    ("time", some (jsOrNull timeV)),
    ("circuit", some (mkObj [
      ("circuitId", circuitIdV), ("url", circuitUrlV), ("circuitName", circuitNameV),
      ("location", some (mkObj [
        ("lat", latV), ("long", longV), ("locality", localityV), ("country", countryV)]))])),
    ("sessions", some (Json.obj [
      ("firstPractice", jsOrNull fpV), ("secondPractice", jsOrNull spV),
      ("thirdPractice", jsOrNull tpV), ("qualifying", jsOrNull qV),
      ("sprint", jsOrNull sprintV)]))])

/-- Outcome of the mandatory (Ergast) part of the calendar request, up to
and including shaping; everything before the optional fetch. -/
inductive MandOutcome where
  | transportFail (msg : String)
  | httpFail (status : Nat)
  | parseFail (msg : String)
  | noData
  | shapeFail (msg : String)
  | shaped (mrData : Option Json) (races : List Json)

def mandatoryCalendarOutcome (ergast : Fetch) : MandOutcome :=
  match ergast with
  | .failure => .transportFail "fetch failed"
  | .response status body =>
    if statusOk status = false then .httpFail status
    else
      match body with
      | none => .parseFail "invalid json"
      | some ergastData =>
        match jsGet (some ergastData) "MRData" with
        | .error e => .shapeFail e
        | .ok mrData =>
          match noRacesCond mrData with
          | .error e => .shapeFail e
          | .ok true => .noData
          | .ok false =>
            match racesArrOf mrData with
            | .error e => .shapeFail e
            | .ok xs =>
              match jsMapThrow shapeRace xs with
              | .error e => .shapeFail e
              | .ok races => .shaped mrData races

/-- Assembling the `res.json({...})` argument of the calendar success
response; the `mrData.RaceTable.season` access happens here, after the
optional fetch, and would be caught by the outer catch. -/
def buildCalendarBody (cy : Int) (year : String) (mrData : Option Json)
    (races : List Json) (openf1Data : Json) : Except String Json := do
  let rt ← jsGet mrData "RaceTable"
  let seasonV ← jsGet rt "season"
  let requestedYearV := if truthy seasonV then seasonV.getD Json.null else Json.str year
  pure (Json.obj [
    ("calendar", Json.obj [
      ("requestedYear", requestedYearV),
      ("totalRaces", Json.num races.length),
      ("races", Json.arr races)]),
    ("openf1Data", openf1Data),
    ("sources", Json.obj [
      ("ergast", Json.str (ergastCalendarUrl year)),
      ("openf1", if openf1Gate cy year then Json.str (openf1MeetingsUrl cy year)
                 else Json.null)])])

/-- Result of the whole calendar handler, together with whether the
optional OpenF1 fetch was issued. -/
structure CalendarOutcome where
  response : HttpResponse
  openf1Fetched : Bool

def calendarHandler (cy : Int) (year : String) (ergast openf1 : Fetch) :
    CalendarOutcome :=
  let v := validateYear cy year
  if v.valid = false then
    ⟨⟨400, Json.obj [("error", v.error.elim Json.null Json.str)]⟩, false⟩
  else
    match mandatoryCalendarOutcome ergast with
    | .transportFail msg => ⟨⟨500, internalErrorBody msg⟩, false⟩
    | .httpFail status =>
      ⟨⟨status, Json.obj [("error", Json.str "Erro ao buscar dados da Ergast API"),
        ("status", Json.num status)]⟩, false⟩
    | .parseFail msg => ⟨⟨500, internalErrorBody msg⟩, false⟩
    | .noData =>
      ⟨⟨404, Json.obj [("error", Json.str "Nenhuma corrida encontrada para este ano"),
        ("year", Json.str year)]⟩, false⟩
    | .shapeFail msg => ⟨⟨500, internalErrorBody msg⟩, false⟩
    | .shaped mrData races =>
      let gate := openf1Gate cy year
      let openf1Data := if gate then openf1Result openf1 else Json.null
      match buildCalendarBody cy year mrData races openf1Data with
      | .ok body => ⟨⟨200, body⟩, gate⟩
      | .error msg => ⟨⟨500, internalErrorBody msg⟩, gate⟩

-- ### Drivers endpoint (GET /api/drivers/:year)
def shapeDriver (d : Json) : Except String Json := do
  let driverIdV ← jsGet (some d) "driverId"
  let permV ← jsGet (some d) "permanentNumber"
  let codeV ← jsGet (some d) "code"
  let urlV ← jsGet (some d) "url"
  let givenV ← jsGet (some d) "givenName"
  let famV ← jsGet (some d) "familyName"
  let dobV ← jsGet (some d) "dateOfBirth"
  let natV ← jsGet (some d) "nationality"
  pure (mkObj [
    ("driverId", driverIdV),
    ("permanentNumber", some (jsOrNull permV)),
    ("code", some (jsOrNull codeV)),
    ("url", urlV), ("givenName", givenV), ("familyName", famV),
    ("dateOfBirth", dobV), ("nationality", natV)])

/-- `data.MRData.DriverTable.Drivers.map(...)`: the whole unguarded access
chain plus shaping. -/
def driversExtract (data : Json) : Except String (List Json) := do
  let mr ← jsGet (some data) "MRData"
  let dt ← jsGet mr "DriverTable"
  let dv ← jsGet dt "Drivers"
  let xs ← asArray dv
  jsMapThrow shapeDriver xs

def driversHandler (cy : Int) (year : String) (f : Fetch) : HttpResponse :=
  let v := validateYear cy year
  if v.valid = false then
    ⟨400, Json.obj [("error", v.error.elim Json.null Json.str)]⟩
  else
    match f with
    | .failure => ⟨500, internalErrorBody "fetch failed"⟩
    | .response status body =>
      if statusOk status = false then
        ⟨status, Json.obj [("error", Json.str "Erro ao buscar dados dos pilotos"),
          ("status", Json.num status)]⟩
      else
        match body with
        | none => ⟨500, internalErrorBody "invalid json"⟩
        | some data =>
          match (do
            let drivers ← driversExtract data
            let mr ← jsGet (some data) "MRData"
            let dt ← jsGet mr "DriverTable"
            let seasonV ← jsGet dt "season"
            pure (mkObj [
              ("season", seasonV),
              ("totalDrivers", some (Json.num drivers.length)),
              ("drivers", some (Json.arr drivers))]) : Except String Json) with
          | .ok b => ⟨200, b⟩
          | .error msg => ⟨500, internalErrorBody msg⟩

-- ### Constructors endpoint (GET /api/constructors/:year)
def shapeConstructor (c : Json) : Except String Json := do
  let cidV ← jsGet (some c) "constructorId"
  let urlV ← jsGet (some c) "url"
  let nameV ← jsGet (some c) "name"
  let natV ← jsGet (some c) "nationality"
  pure (mkObj [("constructorId", cidV), ("url", urlV),
    ("name", nameV), ("nationality", natV)])

def constructorsExtract (data : Json) : Except String (List Json) := do
  let mr ← jsGet (some data) "MRData"
  let ct ← jsGet mr "ConstructorTable"
  let cv ← jsGet ct "Constructors"
  let xs ← asArray cv
  jsMapThrow shapeConstructor xs

def constructorsHandler (cy : Int) (year : String) (f : Fetch) : HttpResponse :=
  let v := validateYear cy year
  if v.valid = false then
    ⟨400, Json.obj [("error", v.error.elim Json.null Json.str)]⟩
  else
    match f with
    | .failure => ⟨500, internalErrorBody "fetch failed"⟩
    | .response status body =>
      if statusOk status = false then
        ⟨status, Json.obj [("error", Json.str "Erro ao buscar dados das equipes"),
          ("status", Json.num status)]⟩
      else
        match body with
        | none => ⟨500, internalErrorBody "invalid json"⟩
        | some data =>
          match (do
            let constructors ← constructorsExtract data
            let mr ← jsGet (some data) "MRData"
            let ct ← jsGet mr "ConstructorTable"
            let seasonV ← jsGet ct "season"
            pure (mkObj [
              ("season", seasonV),
              ("totalConstructors", some (Json.num constructors.length)),
              ("constructors", some (Json.arr constructors))]) : Except String Json) with
          | .ok b => ⟨200, b⟩
          | .error msg => ⟨500, internalErrorBody msg⟩

-- ### Standings endpoints (GET /api/standings/{drivers,constructors}/:year)
/-- `data.MRData?.StandingsTable?.StandingsLists`: the first access is
plain (throws on nullish `data`), the next two are optional chains. -/
def standingsListsOf (data : Json) : Except String (Option Json) := do
  let mr ← jsGet (some data) "MRData"
  pure (optChain (optChain mr "StandingsTable") "StandingsLists")

/-- `standingsLists.length === 0` (strict equality against the number 0;
the receiver is known truthy at this point, so no throw is possible). -/
def jsLengthIsZero (v : Option Json) : Bool :=
  match v with
  | some (.arr xs) => decide (xs.length = 0)
  | some (.str s) => decide (s.length = 0)
  | some (.obj fs) =>
    match lookupField fs "length" with
    | some (.num n) => decide (n = 0)
    | _ => false
  | _ => false

/-- `standingsLists[0]` on a truthy non-empty value. -/
def jsIndexZero (v : Option Json) : Option Json :=
  match v with
  | some (.arr (x :: _)) => some x
  | some (.arr []) => none
  | some (.str s) => if s.length = 0 then none else some (.str (String.singleton s.front))
  | some (.obj fs) => lookupField fs "0"
  | _ => none

def shapeStandingConstructor (c : Json) : Except String Json := do
  let cidV ← jsGet (some c) "constructorId"
  let nameV ← jsGet (some c) "name"
  pure (mkObj [("constructorId", cidV), ("name", nameV)])

def shapeDriverStanding (s : Json) : Except String Json := do
  let posV ← jsGet (some s) "position"
  let ptV ← jsGet (some s) "positionText"
  let ptsV ← jsGet (some s) "points"
  let winsV ← jsGet (some s) "wins"
  let drvV ← jsGet (some s) "Driver"
  let dIdV ← jsGet drvV "driverId"
  let codeV ← jsGet drvV "code"
  let gnV ← jsGet drvV "givenName"
  let fnV ← jsGet drvV "familyName"
  let natV ← jsGet drvV "nationality"
  let consV ← jsGet (some s) "Constructors"
  let cxs ← asArray consV
  let constructors ← jsMapThrow shapeStandingConstructor cxs
  pure (mkObj [
    ("position", posV), ("positionText", ptV), ("points", ptsV), ("wins", winsV),
    ("driver", some (mkObj [("driverId", dIdV), ("code", codeV), ("givenName", gnV),
      ("familyName", fnV), ("nationality", natV)])),
    ("constructors", some (Json.arr constructors))])

/-- Assembly of the driver-standings success body from
`standingsList = standingsLists[0]`. -/
def driverStandingsAssemble (sl0 : Option Json) : Except String Json := do
  let seasonV ← jsGet sl0 "season"
  let roundV ← jsGet sl0 "round"
  let dsV ← jsGet sl0 "DriverStandings"
  let xs ← asArray dsV
  let standings ← jsMapThrow shapeDriverStanding xs
  pure (mkObj [("season", seasonV), ("round", roundV),
    ("standings", some (Json.arr standings))])

def standingsDriversHandler (cy : Int) (year : String) (f : Fetch) : HttpResponse :=
  let v := validateYear cy year
  if v.valid = false then
    ⟨400, Json.obj [("error", v.error.elim Json.null Json.str)]⟩
  else
    match f with
    | .failure => ⟨500, internalErrorBody "fetch failed"⟩
    | .response status body =>
      if statusOk status = false then
        ⟨status, Json.obj [("error", Json.str "Erro ao buscar classificacao de pilotos"),
          ("status", Json.num status)]⟩
      else
        match body with
        | none => ⟨500, internalErrorBody "invalid json"⟩
        | some data =>
          match standingsListsOf data with
          | .error msg => ⟨500, internalErrorBody msg⟩
          | .ok sl =>
            if (!truthy sl || jsLengthIsZero sl) then
              ⟨404, Json.obj [("error",
                Json.str "Classificacao nao disponivel para este ano")]⟩
            else
              match driverStandingsAssemble (jsIndexZero sl) with
              | .ok b => ⟨200, b⟩
              | .error msg => ⟨500, internalErrorBody msg⟩

def shapeConstructorStanding (s : Json) : Except String Json := do
  let posV ← jsGet (some s) "position"
  let ptV ← jsGet (some s) "positionText"
  let ptsV ← jsGet (some s) "points"
  let winsV ← jsGet (some s) "wins"
  let conV ← jsGet (some s) "Constructor"
  let cidV ← jsGet conV "constructorId"
  let nameV ← jsGet conV "name"
  let natV ← jsGet conV "nationality"
  pure (mkObj [
    ("position", posV), ("positionText", ptV), ("points", ptsV), ("wins", winsV),
    ("constructor", some (mkObj [("constructorId", cidV), ("name", nameV),
      ("nationality", natV)]))])

def constructorStandingsAssemble (sl0 : Option Json) : Except String Json := do
  let seasonV ← jsGet sl0 "season"
  let roundV ← jsGet sl0 "round"
  let csV ← jsGet sl0 "ConstructorStandings"
  let xs ← asArray csV
  let standings ← jsMapThrow shapeConstructorStanding xs
  pure (mkObj [("season", seasonV), ("round", roundV),
    ("standings", some (Json.arr standings))])

def standingsConstructorsHandler (cy : Int) (year : String) (f : Fetch) : HttpResponse :=
  let v := validateYear cy year
  if v.valid = false then
    ⟨400, Json.obj [("error", v.error.elim Json.null Json.str)]⟩
  else
    match f with
    | .failure => ⟨500, internalErrorBody "fetch failed"⟩
    | .response status body =>
      if statusOk status = false then
        ⟨status, Json.obj [("error", Json.str "Erro ao buscar classificacao de construtores"),
          ("status", Json.num status)]⟩
      else
        match body with
        | none => ⟨500, internalErrorBody "invalid json"⟩
        | some data =>
          match standingsListsOf data with
          | .error msg => ⟨500, internalErrorBody msg⟩
          | .ok sl =>
            if (!truthy sl || jsLengthIsZero sl) then
              ⟨404, Json.obj [("error",
                Json.str "Classificacao nao disponivel para este ano")]⟩
            else
              match constructorStandingsAssemble (jsIndexZero sl) with
              | .ok b => ⟨200, b⟩
              | .error msg => ⟨500, internalErrorBody msg⟩

-- ### Helper lemmas
def isNonNullish : Option Json → Bool
  | none => false
  | some .null => false
  | some _ => true

/-- Field read on a known non-nullish value (total counterpart of `jsGet`). -/
def fieldOf (v : Option Json) (k : String) : Option Json :=
  match v with
  | some (.obj fs) => lookupField fs k
  | _ => none

def isError (x : Except String Json) : Bool :=
  match x with
  | .error _ => true
  | .ok _ => false

/-- First standings list used in the C8 witness (drivers variant). -/
def c8FirstDrivers : Json :=
  Json.obj [("season", Json.str "2023"), ("round", Json.str "22"),
    ("DriverStandings", Json.arr [])]

def c8SecondDrivers : Json :=
  Json.obj [("season", Json.str "1999"), ("round", Json.str "1"),
    ("DriverStandings", Json.arr [])]

def c8FirstConstructors : Json :=
  Json.obj [("season", Json.str "2023"), ("round", Json.str "22"),
    ("ConstructorStandings", Json.arr [])]

def c8SecondConstructors : Json :=
  Json.obj [("season", Json.str "1999"), ("round", Json.str "1"),
    ("ConstructorStandings", Json.arr [])]

def standingsPayload (lists : List Json) : Json :=
  Json.obj [("MRData", Json.obj [("StandingsTable",
    Json.obj [("StandingsLists", Json.arr lists)])])]

/-- Reads a path inside a shaping result (absent when shaping threw). -/
def shapedField (r : Except String Json) (path : List String) : Option (Option Json) :=
  match r with
  | .error _ => none
  | .ok b => some (getPath b path)

/-- Race record used for the C7 counterexample: `FirstPractice` is present
with the (falsy) value `false`. -/
def c7Race : Json :=
  Json.obj [("season", Json.str "2024"), ("round", Json.str "1"),
    ("url", Json.str "u"), ("raceName", Json.str "GP"), ("date", Json.str "d"),
    ("time", Json.str "t"),
    ("Circuit", Json.obj [("circuitId", Json.str "c"), ("url", Json.str "cu"),
      ("circuitName", Json.str "cn"),
      ("Location", Json.obj [("lat", Json.str "1"), ("long", Json.str "2"),
        ("locality", Json.str "l"), ("country", Json.str "co")])]),
    ("FirstPractice", Json.bool false),
    ("Qualifying", Json.obj [("date", Json.str "q")])]

/-- Race record used for the C7 witness: all practice and qualifying
sessions present, `Sprint` and the top-level `time` absent. -/
def c7FullRace : Json :=
  Json.obj [("season", Json.str "2024"), ("round", Json.str "1"),
    ("url", Json.str "u"), ("raceName", Json.str "GP"), ("date", Json.str "d"),
    ("Circuit", Json.obj [("circuitId", Json.str "c"), ("url", Json.str "cu"),
      ("circuitName", Json.str "cn"),
      ("Location", Json.obj [("lat", Json.str "1"), ("long", Json.str "2"),
        ("locality", Json.str "l"), ("country", Json.str "co")])]),
    ("FirstPractice", Json.obj [("date", Json.str "fp")]),
    ("SecondPractice", Json.obj [("date", Json.str "sp")]),
    ("ThirdPractice", Json.obj [("date", Json.str "tp")]),
    ("Qualifying", Json.obj [("date", Json.str "q")])]

-- ### Theorems

-- ### Bridging lemmas between the regex and parseInt
theorem digit_not_ws (c : Char) (h : isDigitCode c.toNat = true) :
    isJsWhitespace c = false := by
  simp only [isDigitCode, decide_eq_true_eq] at h
  simp only [isJsWhitespace, decide_eq_false_iff_not]
  omega

theorem digit_beq_false (c : Char) (m : Nat) (h : isDigitCode c.toNat = true)
    (hm : m < 48) : (c.toNat == m) = false := by
  simp only [isDigitCode, decide_eq_true_eq] at h
  simp only [beq_eq_false_iff_ne, ne_eq]
  omega

theorem parseInt_of_fourDigits (s : String) (h : regexFourDigits s = true) :
    jsParseInt s = some (fourDigitVal s) := by
  unfold regexFourDigits fourDigitsChars at h
  unfold jsParseInt parseIntChars fourDigitVal
  rcases hs : s.toList with _ | ⟨a, _ | ⟨b, _ | ⟨c, _ | ⟨d, _ | ⟨e, t⟩⟩⟩⟩⟩ <;>
    rw [hs] at h <;> simp only [List.length, List.all, Bool.and_eq_true, beq_iff_eq,
      List.all_nil, List.all_cons] at h
  · first | exact absurd h (by decide) | exact absurd h.1 (by decide)
  · first | exact absurd h (by decide) | exact absurd h.1 (by decide)
  · first | exact absurd h (by decide) | exact absurd h.1 (by decide)
  · first | exact absurd h (by decide) | exact absurd h.1 (by decide)
  case cons.cons.cons.cons.cons => exact absurd h.1 (by omega)
  case cons.cons.cons.cons =>
    obtain ⟨_, ha, hb, hc, hd⟩ := h
    have hws := digit_not_ws a ha
    rw [List.dropWhile_cons, hws]
    simp only [Bool.false_eq_true, if_false, digit_beq_false a 45 ha (by omega),
      digit_beq_false a 43 ha (by omega), Bool.false_eq_true, if_false]
    unfold leadingDigitsVal
    simp [List.takeWhile_cons, ha, hb, hc, hd]

theorem jsGet_eq_fieldOf (v : Option Json) (k : String) (h : isNonNullish v = true) :
    jsGet v k = .ok (fieldOf v k) := by
  match v with
  | none => simp [isNonNullish] at h
  | some .null => simp [isNonNullish] at h
  | some (.bool b) => rfl
  | some (.num n) => rfl
  | some (.str s) => rfl
  | some (.arr xs) => rfl
  | some (.obj fs) => rfl

theorem truthy_nonNullish (v : Option Json) (h : truthy v = true) :
    isNonNullish v = true := by
  match v with
  | none => simp [truthy] at h
  | some .null => simp [truthy] at h
  | some (.bool b) => rfl
  | some (.num n) => rfl
  | some (.str s) => rfl
  | some (.arr xs) => rfl
  | some (.obj fs) => rfl

theorem jsMapThrow_ok_length (f : Json → Except String Json) :
    ∀ (xs ys : List Json), jsMapThrow f xs = .ok ys → ys.length = xs.length := by
  intro xs
  induction xs with
  | nil => intro ys h; cases h; rfl
  | cons x xs ih =>
    intro ys h
    unfold jsMapThrow at h
    simp only [Bind.bind, Except.bind] at h
    cases hfx : f x with
    | error e => rw [hfx] at h; cases h
    | ok y =>
      rw [hfx] at h
      cases hrest : jsMapThrow f xs with
      | error e => rw [hrest] at h; cases h
      | ok ys2 =>
        rw [hrest] at h
        cases h
        simp [ih ys2 hrest]

theorem jsMapThrow_ok_get (f : Json → Except String Json) :
    ∀ (xs ys : List Json), jsMapThrow f xs = .ok ys →
      ∀ (i : Nat) (hi : i < xs.length) (hj : i < ys.length),
        f (xs.get ⟨i, hi⟩) = .ok (ys.get ⟨i, hj⟩) := by
  intro xs
  induction xs with
  | nil => intro ys h i hi hj; exact absurd hi (Nat.not_lt_zero i)
  | cons x xs ih =>
    intro ys h i hi hj
    unfold jsMapThrow at h
    simp only [Bind.bind, Except.bind] at h
    cases hfx : f x with
    | error e => rw [hfx] at h; cases h
    | ok y =>
      rw [hfx] at h
      cases hrest : jsMapThrow f xs with
      | error e => rw [hrest] at h; cases h
      | ok ys2 =>
        rw [hrest] at h
        cases h
        cases i with
        | zero => exact hfx
        | succ j => exact ih ys2 hrest j (Nat.lt_of_succ_lt_succ hi) (Nat.lt_of_succ_lt_succ hj)

theorem jsMapThrow_error_of_mem (f : Json → Except String Json) (r : Json) (e : String)
    (hr : f r = .error e) :
    ∀ (xs : List Json), r ∈ xs → ∃ e2, jsMapThrow f xs = .error e2 := by
  intro xs
  induction xs with
  | nil => intro hmem; cases hmem
  | cons x xs ih =>
    intro hmem
    unfold jsMapThrow
    simp only [Bind.bind, Except.bind]
    rcases List.mem_cons.mp hmem with heq | htail
    · subst heq; rw [hr]; exact ⟨e, rfl⟩
    · cases hfx : f x with
      | error e3 => exact ⟨e3, rfl⟩
      | ok y =>
        obtain ⟨e2, h2⟩ := ih htail
        rw [h2]
        exact ⟨e2, rfl⟩

theorem noRacesCond_false_inv (mr : Option Json) (h : noRacesCond mr = .ok false) :
    ∃ rt, jsGet mr "RaceTable" = .ok rt ∧ truthy rt = true := by
  unfold noRacesCond at h
  simp only [Bind.bind, Except.bind] at h
  cases hrt : jsGet mr "RaceTable" with
  | error e => rw [hrt] at h; cases h
  | ok rt =>
    rw [hrt] at h
    by_cases htr : truthy rt
    · exact ⟨rt, rfl, htr⟩
    · simp only [htr, Bool.false_eq_true, if_false] at h
      cases h

theorem openf1Result_null_of_fails (f : Fetch) (h : optionalFetchFails f = true) :
    openf1Result f = Json.null := by
  cases f with
  | failure => rfl
  | response s b =>
    unfold optionalFetchFails at h
    unfold openf1Result
    by_cases hs : statusOk s
    · simp only [hs, if_true] at h ⊢
      cases b with
      | none => rfl
      | some j => cases h
    · simp only [hs, Bool.false_eq_true, if_false]

theorem mandatory_shaped_inv (ergast : Fetch) (mr : Option Json) (races : List Json)
    (h : mandatoryCalendarOutcome ergast = .shaped mr races) :
    noRacesCond mr = .ok false ∧
      ∀ xs, racesArrOf mr = .ok xs → jsMapThrow shapeRace xs = .ok races := by
  cases ergast with
  | failure => cases h
  | response s b =>
    unfold mandatoryCalendarOutcome at h
    dsimp only at h
    by_cases hs : statusOk s = false
    · rw [if_pos hs] at h; cases h
    · rw [if_neg hs] at h
      cases b with
      | none => cases h
      | some data =>
        dsimp only at h
        cases hmr : jsGet (some data) "MRData" with
        | error e => rw [hmr] at h; cases h
        | ok mrD =>
          rw [hmr] at h
          dsimp only at h
          cases hnd : noRacesCond mrD with
          | error e => rw [hnd] at h; cases h
          | ok bb =>
            rw [hnd] at h
            cases bb with
            | true => cases h
            | false =>
              dsimp only at h
              cases hra : racesArrOf mrD with
              | error e => rw [hra] at h; cases h
              | ok xs0 =>
                rw [hra] at h
                dsimp only at h
                cases hmp : jsMapThrow shapeRace xs0 with
                | error e => rw [hmp] at h; cases h
                | ok rs =>
                  rw [hmp] at h
                  dsimp only at h
                  cases h
                  refine ⟨hnd, ?_⟩
                  intro xs hxs
                  rw [hra] at hxs
                  cases hxs
                  exact hmp

theorem mandatory_httpFail_inv (ergast : Fetch) (s : Nat)
    (h : mandatoryCalendarOutcome ergast = .httpFail s) : statusOk s = false := by
  cases ergast with
  | failure => cases h
  | response s2 b =>
    unfold mandatoryCalendarOutcome at h
    dsimp only at h
    by_cases hs : statusOk s2 = false
    · rw [if_pos hs] at h
      cases h
      exact hs
    · rw [if_neg hs] at h
      cases b with
      | none => cases h
      | some data =>
        dsimp only at h
        cases hmr : jsGet (some data) "MRData" with
        | error e => rw [hmr] at h; cases h
        | ok mrD =>
          rw [hmr] at h
          dsimp only at h
          cases hnd : noRacesCond mrD with
          | error e => rw [hnd] at h; cases h
          | ok bb =>
            rw [hnd] at h
            cases bb with
            | true => cases h
            | false =>
              dsimp only at h
              cases hra : racesArrOf mrD with
              | error e => rw [hra] at h; cases h
              | ok xs0 =>
                rw [hra] at h
                dsimp only at h
                cases hmp : jsMapThrow shapeRace xs0 with
                | error e => rw [hmp] at h; cases h
                | ok rs => rw [hmp] at h; cases h

theorem buildCalendarBody_of_ok (cy : Int) (year : String) (mrData : Option Json)
    (races : List Json) (openf1Data : Json) (rt : Option Json)
    (hrt : jsGet mrData "RaceTable" = .ok rt) (htr : truthy rt = true) :
    buildCalendarBody cy year mrData races openf1Data = .ok (Json.obj [
      ("calendar", Json.obj [
        ("requestedYear", if truthy (fieldOf rt "season") then
            (fieldOf rt "season").getD Json.null else Json.str year),
        ("totalRaces", Json.num races.length),
        ("races", Json.arr races)]),
      ("openf1Data", openf1Data),
      ("sources", Json.obj [
        ("ergast", Json.str (ergastCalendarUrl year)),
        ("openf1", if openf1Gate cy year then Json.str (openf1MeetingsUrl cy year)
                   else Json.null)])]) := by
  have hsv : jsGet rt "season" = .ok (fieldOf rt "season") :=
    jsGet_eq_fieldOf rt "season" (truthy_nonNullish rt htr)
  unfold buildCalendarBody
  simp only [Bind.bind, Except.bind]
  rw [hrt]
  dsimp only
  rw [hsv]
  rfl

/-- Full shape of the calendar handler's output in the successful mandatory
case: status 200, the three top-level keys, and the optional-fetch flag. -/
theorem calendarHandler_shaped_eq (cy : Int) (year : String) (ergast openf1 : Fetch)
    (mr : Option Json) (races : List Json)
    (hvalid : (validateYear cy year).valid = true)
    (hmand : mandatoryCalendarOutcome ergast = .shaped mr races) :
    ∃ sv : Option Json,
      calendarHandler cy year ergast openf1 = ⟨⟨200, Json.obj [
        ("calendar", Json.obj [
          ("requestedYear", if truthy sv then sv.getD Json.null else Json.str year),
          ("totalRaces", Json.num races.length),
          ("races", Json.arr races)]),
        ("openf1Data", if openf1Gate cy year then openf1Result openf1 else Json.null),
        ("sources", Json.obj [
          ("ergast", Json.str (ergastCalendarUrl year)),
          ("openf1", if openf1Gate cy year then Json.str (openf1MeetingsUrl cy year)
                     else Json.null)])]⟩,
        openf1Gate cy year⟩ := by
  obtain ⟨hnd, _⟩ := mandatory_shaped_inv ergast mr races hmand
  obtain ⟨rt, hrt, htr⟩ := noRacesCond_false_inv mr hnd
  refine ⟨fieldOf rt "season", ?_⟩
  have hnv : ¬((validateYear cy year).valid = false) := by rw [hvalid]; simp
  unfold calendarHandler
  dsimp only
  rw [if_neg hnv, hmand]
  dsimp only
  rw [buildCalendarBody_of_ok cy year mr races
    (if openf1Gate cy year then openf1Result openf1 else Json.null) rt hrt htr]

/-- The optional-fetch flag is `false` in every failure branch and equals
the year gate in the successful branch. -/
theorem calendarHandler_flag (cy : Int) (year : String) (ergast openf1 : Fetch) :
    (calendarHandler cy year ergast openf1).openf1Fetched = false ∨
    (calendarHandler cy year ergast openf1).openf1Fetched = openf1Gate cy year := by
  unfold calendarHandler
  dsimp only
  split
  · exact Or.inl rfl
  · split
    · exact Or.inl rfl
    · exact Or.inl rfl
    · exact Or.inl rfl
    · exact Or.inl rfl
    · exact Or.inl rfl
    · split
      · exact Or.inr rfl
      · exact Or.inr rfl

/-- A 200 calendar response forces a valid year and a shaped mandatory
outcome. -/
theorem calendarHandler_200_inv (cy : Int) (year : String) (ergast openf1 : Fetch)
    (h : (calendarHandler cy year ergast openf1).response.status = 200) :
    ∃ mr races, (validateYear cy year).valid = true ∧
      mandatoryCalendarOutcome ergast = .shaped mr races := by
  unfold calendarHandler at h
  dsimp only at h
  split at h
  · dsimp only at h; omega
  case isFalse hv =>
    have hvalid : (validateYear cy year).valid = true := by
      revert hv
      cases (validateYear cy year).valid <;> simp
    split at h
    · dsimp only at h; omega
    case h_2 s heq =>
      dsimp only at h
      have hns := mandatory_httpFail_inv ergast s heq
      rw [h] at hns
      exact absurd hns (by decide)
    · dsimp only at h; omega
    · dsimp only at h; omega
    · dsimp only at h; omega
    case h_6 mrD racesD heq =>
      exact ⟨mrD, racesD, hvalid, heq⟩

/-- C1: for a resolved year at or above the OpenF1 minimum, a failing
optional fetch (transport error, non-2xx, or JSON parse error) is
swallowed: the calendar endpoint still answers HTTP 200, `openf1Data` is
an explicit `null`, and `totalRaces` equals the mandatory source's race
count. -/
theorem calendar_optional_failure_swallowed
    (cy ry : Int) (year : String) (ergast openf1 : Fetch) (mr : Option Json)
    (races xs : List Json)
    (hvalid : (validateYear cy year).valid = true)
    (hry : resolvedYear cy year = some ry)
    (hge : OPENF1_MIN_YEAR ≤ ry)
    (hmand : mandatoryCalendarOutcome ergast = .shaped mr races)
    (hxs : racesArrOf mr = .ok xs)
    (hfail : optionalFetchFails openf1 = true) :
    (calendarHandler cy year ergast openf1).response.status = 200 ∧
    getPath (calendarHandler cy year ergast openf1).response.body ["openf1Data"]
      = some Json.null ∧
    getPath (calendarHandler cy year ergast openf1).response.body ["calendar", "totalRaces"]
      = some (Json.num xs.length) := by
  have hgate : openf1Gate cy year = true := by
    unfold openf1Gate
    rw [hry]
    exact decide_eq_true hge
  obtain ⟨_, hmp⟩ := mandatory_shaped_inv ergast mr races hmand
  have hlen : races.length = xs.length := jsMapThrow_ok_length shapeRace xs races (hmp xs hxs)
  obtain ⟨sv, heq⟩ := calendarHandler_shaped_eq cy year ergast openf1 mr races hvalid hmand
  rw [heq]
  refine ⟨rfl, ?_, ?_⟩
  · simp only [hgate, if_true, openf1Result_null_of_fails openf1 hfail]
    rfl
  · rw [hlen]
    rfl

/-- Witness for C1 at a concrete request: year 2024, a mandatory payload
with an empty race list, and an optional fetch answering HTTP 500. -/
theorem calendar_optional_failure_swallowed_witness :
    (calendarHandler 2024 "2024"
      (Fetch.response 200 (some (Json.obj [("MRData", Json.obj [("RaceTable",
        Json.obj [("season", Json.str "2024"), ("Races", Json.arr [])])])])))
      (Fetch.response 500 none)).response.status = 200 ∧
    getPath (calendarHandler 2024 "2024"
      (Fetch.response 200 (some (Json.obj [("MRData", Json.obj [("RaceTable",
        Json.obj [("season", Json.str "2024"), ("Races", Json.arr [])])])])))
      (Fetch.response 500 none)).response.body ["openf1Data"] = some Json.null ∧
    getPath (calendarHandler 2024 "2024"
      (Fetch.response 200 (some (Json.obj [("MRData", Json.obj [("RaceTable",
        Json.obj [("season", Json.str "2024"), ("Races", Json.arr [])])])])))
      (Fetch.response 500 none)).response.body ["calendar", "totalRaces"]
      = some (Json.num (List.length ([] : List Json))) :=
  calendar_optional_failure_swallowed 2024 2024 "2024"
    (Fetch.response 200 (some (Json.obj [("MRData", Json.obj [("RaceTable",
      Json.obj [("season", Json.str "2024"), ("Races", Json.arr [])])])])))
    (Fetch.response 500 none)
    (some (Json.obj [("RaceTable",
      Json.obj [("season", Json.str "2024"), ("Races", Json.arr [])])]))
    [] [] (by decide) (by decide) (by decide) rfl rfl rfl

/-- C2: for a resolved year below the OpenF1 minimum, the optional fetch
is never issued, and when the request succeeds the `sources.openf1` field
of the response is `null`. -/
theorem calendar_pre2023_skips_openf1
    (cy ry : Int) (year : String) (ergast openf1 : Fetch)
    (hry : resolvedYear cy year = some ry)
    (hlt : ry < OPENF1_MIN_YEAR) :
    (calendarHandler cy year ergast openf1).openf1Fetched = false ∧
    ((calendarHandler cy year ergast openf1).response.status = 200 →
      getPath (calendarHandler cy year ergast openf1).response.body ["sources", "openf1"]
        = some Json.null) := by
  have hgate : openf1Gate cy year = false := by
    unfold openf1Gate
    rw [hry]
    exact decide_eq_false (not_le.mpr hlt)
  constructor
  · rcases calendarHandler_flag cy year ergast openf1 with h | h
    · exact h
    · rw [h, hgate]
  · intro h200
    obtain ⟨mrD, racesD, hv, hm⟩ := calendarHandler_200_inv cy year ergast openf1 h200
    obtain ⟨sv, heq⟩ := calendarHandler_shaped_eq cy year ergast openf1 mrD racesD hv hm
    rw [heq]
    simp only [hgate, Bool.false_eq_true, if_false]
    rfl

/-- Witness for C2 at a concrete request: year 2000 with a successful
mandatory fetch; the optional fetch is skipped and `sources.openf1` is
`null`. -/
theorem calendar_pre2023_skips_openf1_witness :
    (calendarHandler 2024 "2000"
      (Fetch.response 200 (some (Json.obj [("MRData", Json.obj [("RaceTable",
        Json.obj [("season", Json.str "2000"), ("Races", Json.arr [])])])])))
      (Fetch.response 200 (some (Json.arr [])))).openf1Fetched = false ∧
    ((calendarHandler 2024 "2000"
      (Fetch.response 200 (some (Json.obj [("MRData", Json.obj [("RaceTable",
        Json.obj [("season", Json.str "2000"), ("Races", Json.arr [])])])])))
      (Fetch.response 200 (some (Json.arr [])))).response.status = 200 →
      getPath (calendarHandler 2024 "2000"
        (Fetch.response 200 (some (Json.obj [("MRData", Json.obj [("RaceTable",
          Json.obj [("season", Json.str "2000"), ("Races", Json.arr [])])])])))
        (Fetch.response 200 (some (Json.arr [])))).response.body ["sources", "openf1"]
        = some Json.null) :=
  calendar_pre2023_skips_openf1 2024 2000 "2000"
    (Fetch.response 200 (some (Json.obj [("MRData", Json.obj [("RaceTable",
      Json.obj [("season", Json.str "2000"), ("Races", Json.arr [])])])])))
    (Fetch.response 200 (some (Json.arr []))) (by decide) (by decide)

/-- C9: every successful calendar response satisfies
`totalRaces == length(races)` and its `races` array is the elementwise
shaping of the mandatory upstream's race list, in the upstream's order. -/
theorem calendar_totalRaces_order
    (cy : Int) (year : String) (ergast openf1 : Fetch) (mr : Option Json)
    (races xs : List Json)
    (hvalid : (validateYear cy year).valid = true)
    (hmand : mandatoryCalendarOutcome ergast = .shaped mr races)
    (hxs : racesArrOf mr = .ok xs) :
    (calendarHandler cy year ergast openf1).response.status = 200 ∧
    getPath (calendarHandler cy year ergast openf1).response.body ["calendar", "totalRaces"]
      = some (Json.num races.length) ∧
    getPath (calendarHandler cy year ergast openf1).response.body ["calendar", "races"]
      = some (Json.arr races) ∧
    races.length = xs.length ∧
    (∀ (i : Nat) (hi : i < xs.length) (hj : i < races.length),
      shapeRace (xs.get ⟨i, hi⟩) = .ok (races.get ⟨i, hj⟩)) := by
  obtain ⟨_, hmp⟩ := mandatory_shaped_inv ergast mr races hmand
  have hok : jsMapThrow shapeRace xs = .ok races := hmp xs hxs
  obtain ⟨sv, heq⟩ := calendarHandler_shaped_eq cy year ergast openf1 mr races hvalid hmand
  rw [heq]
  exact ⟨rfl, rfl, rfl, jsMapThrow_ok_length shapeRace xs races hok,
    fun i hi hj => jsMapThrow_ok_get shapeRace xs races hok i hi hj⟩

/-- Witness for C9 at a concrete request with one fully populated race
record. -/
theorem calendar_totalRaces_order_witness :
    (calendarHandler 2024 "2024"
      (Fetch.response 200 (some (Json.obj [("MRData", Json.obj [("RaceTable",
        Json.obj [("season", Json.str "2024"), ("Races", Json.arr [Json.obj [
          ("season", Json.str "2024"), ("round", Json.str "1"),
          ("url", Json.str "u"), ("raceName", Json.str "Bahrain Grand Prix"),
          ("date", Json.str "2024-03-02"), ("time", Json.str "15:00:00Z"),
          ("Circuit", Json.obj [("circuitId", Json.str "bahrain"),
            ("url", Json.str "cu"), ("circuitName", Json.str "BIC"),
            ("Location", Json.obj [("lat", Json.str "26"), ("long", Json.str "50"),
              ("locality", Json.str "Sakhir"), ("country", Json.str "Bahrain")])]),
          ("FirstPractice", Json.obj [("date", Json.str "2024-02-29")]),
          ("Qualifying", Json.obj [("date", Json.str "2024-03-01")])]])])])])))
      Fetch.failure).response.status = 200 ∧
    getPath (calendarHandler 2024 "2024"
      (Fetch.response 200 (some (Json.obj [("MRData", Json.obj [("RaceTable",
        Json.obj [("season", Json.str "2024"), ("Races", Json.arr [Json.obj [
          ("season", Json.str "2024"), ("round", Json.str "1"),
          ("url", Json.str "u"), ("raceName", Json.str "Bahrain Grand Prix"),
          ("date", Json.str "2024-03-02"), ("time", Json.str "15:00:00Z"),
          ("Circuit", Json.obj [("circuitId", Json.str "bahrain"),
            ("url", Json.str "cu"), ("circuitName", Json.str "BIC"),
            ("Location", Json.obj [("lat", Json.str "26"), ("long", Json.str "50"),
              ("locality", Json.str "Sakhir"), ("country", Json.str "Bahrain")])]),
          ("FirstPractice", Json.obj [("date", Json.str "2024-02-29")]),
          ("Qualifying", Json.obj [("date", Json.str "2024-03-01")])]])])])])))
      Fetch.failure).response.body ["calendar", "totalRaces"] = some (Json.num 1) := by
  obtain ⟨h1, h2, _⟩ := calendar_totalRaces_order 2024 "2024"
    (Fetch.response 200 (some (Json.obj [("MRData", Json.obj [("RaceTable",
      Json.obj [("season", Json.str "2024"), ("Races", Json.arr [Json.obj [
        ("season", Json.str "2024"), ("round", Json.str "1"),
        ("url", Json.str "u"), ("raceName", Json.str "Bahrain Grand Prix"),
        ("date", Json.str "2024-03-02"), ("time", Json.str "15:00:00Z"),
        ("Circuit", Json.obj [("circuitId", Json.str "bahrain"),
          ("url", Json.str "cu"), ("circuitName", Json.str "BIC"),
          ("Location", Json.obj [("lat", Json.str "26"), ("long", Json.str "50"),
            ("locality", Json.str "Sakhir"), ("country", Json.str "Bahrain")])]),
        ("FirstPractice", Json.obj [("date", Json.str "2024-02-29")]),
        ("Qualifying", Json.obj [("date", Json.str "2024-03-01")])]])])])])))
    Fetch.failure _ _ _ (by decide) rfl rfl
  exact ⟨h1, h2⟩

theorem rangeMsg_ne_empty (cy : Int) : rangeMsg cy ≠ "" := by
  intro h
  have hlen := congrArg String.length h
  simp only [rangeMsg, String.length_append] at hlen
  rw [show ("" : String).length = 0 from rfl, show ("." : String).length = 1 from rfl] at hlen
  omega

/-- C3: `validateYear` accepts exactly the token "current" and the
four-digit tokens whose value lies in `[F1_MIN_YEAR, F1_MAX_YEAR]`; every
rejected token gets a non-empty error message. -/
theorem validateYear_valid_iff (cy : Int) (year : String) :
    ((validateYear cy year).valid = true ↔
      (year = "current" ∨
        (regexFourDigits year = true ∧ F1_MIN_YEAR ≤ fourDigitVal year ∧
          fourDigitVal year ≤ F1_MAX_YEAR cy))) ∧
    ((validateYear cy year).valid = false →
      ∃ e, (validateYear cy year).error = some e ∧ e ≠ "") := by
  by_cases hc : year = "current"
  · constructor
    · simp [validateYear, hc]
    · intro h
      simp [validateYear, hc] at h
  · unfold validateYear
    rw [if_neg hc]
    cases hp : jsParseInt year with
    | none =>
      constructor
      · constructor
        · intro h; cases h
        · intro h
          rcases h with h | ⟨hr, _⟩
          · exact absurd h hc
          · rw [parseInt_of_fourDigits year hr] at hp; cases hp
      · intro _
        exact ⟨invalidFormatMsg, rfl, by decide⟩
    | some n =>
      dsimp only
      by_cases hr : regexFourDigits year = false
      · rw [if_pos hr]
        constructor
        · constructor
          · intro h; cases h
          · intro h
            rcases h with h | ⟨hr2, _⟩
            · exact absurd h hc
            · rw [hr2] at hr; cases hr
        · intro _
          exact ⟨invalidFormatMsg, rfl, by decide⟩
      · have hr2 : regexFourDigits year = true := by
          revert hr
          cases regexFourDigits year <;> simp
        have hn : n = fourDigitVal year := by
          have hb := parseInt_of_fourDigits year hr2
          rw [hp] at hb
          exact Option.some.inj hb
        subst hn
        rw [if_neg hr]
        by_cases hrange : fourDigitVal year < F1_MIN_YEAR ∨ fourDigitVal year > F1_MAX_YEAR cy
        · rw [if_pos hrange]
          constructor
          · constructor
            · intro h; cases h
            · intro h
              rcases h with h | ⟨_, hlo, hhi⟩
              · exact absurd h hc
              · rcases hrange with h2 | h2 <;> omega
          · intro _
            exact ⟨rangeMsg cy, rfl, rangeMsg_ne_empty cy⟩
        · rw [if_neg hrange]
          constructor
          · constructor
            · intro _
              exact Or.inr ⟨hr2, by omega, by omega⟩
            · intro _; rfl
          · intro h; cases h

/-- Witness for C3: the malformed token "abcd" is rejected with a
non-empty message, and "2024" is accepted in year 2024. -/
theorem validateYear_valid_iff_witness :
    (∃ e, (validateYear 2024 "abcd").error = some e ∧ e ≠ "") ∧
    ((validateYear 2024 "2024").valid = true ↔
      ("2024" = "current" ∨
        (regexFourDigits "2024" = true ∧ F1_MIN_YEAR ≤ fourDigitVal "2024" ∧
          fourDigitVal "2024" ≤ F1_MAX_YEAR 2024))) :=
  ⟨(validateYear_valid_iff 2024 "abcd").2 (by decide),
   (validateYear_valid_iff 2024 "2024").1⟩

/-- C4: when the mandatory source answers with a non-2xx status, every
data endpoint mirrors that status code and returns a body with an `error`
field, whatever the optional source does. -/
theorem mandatory_non2xx_propagated
    (cy : Int) (year : String) (s : Nat) (b : Option Json) (openf1 : Fetch)
    (hvalid : (validateYear cy year).valid = true)
    (hs : statusOk s = false) :
    ((calendarHandler cy year (.response s b) openf1).response.status = s ∧
      getPath (calendarHandler cy year (.response s b) openf1).response.body ["error"]
        = some (Json.str "Erro ao buscar dados da Ergast API")) ∧
    ((driversHandler cy year (.response s b)).status = s ∧
      getPath (driversHandler cy year (.response s b)).body ["error"]
        = some (Json.str "Erro ao buscar dados dos pilotos")) ∧
    ((constructorsHandler cy year (.response s b)).status = s ∧
      getPath (constructorsHandler cy year (.response s b)).body ["error"]
        = some (Json.str "Erro ao buscar dados das equipes")) ∧
    ((standingsDriversHandler cy year (.response s b)).status = s ∧
      getPath (standingsDriversHandler cy year (.response s b)).body ["error"]
        = some (Json.str "Erro ao buscar classificacao de pilotos")) ∧
    ((standingsConstructorsHandler cy year (.response s b)).status = s ∧
      getPath (standingsConstructorsHandler cy year (.response s b)).body ["error"]
        = some (Json.str "Erro ao buscar classificacao de construtores")) := by
  have hnv : ¬((validateYear cy year).valid = false) := by rw [hvalid]; simp
  refine ⟨?_, ?_, ?_, ?_, ?_⟩
  · have hmo : mandatoryCalendarOutcome (Fetch.response s b) = .httpFail s := by
      unfold mandatoryCalendarOutcome
      dsimp only
      rw [if_pos hs]
    unfold calendarHandler
    dsimp only
    rw [if_neg hnv, hmo]
    exact ⟨rfl, rfl⟩
  · unfold driversHandler
    try dsimp only
    rw [if_neg hnv]
    try dsimp only
    rw [if_pos hs]
    exact ⟨rfl, rfl⟩
  · unfold constructorsHandler
    try dsimp only
    rw [if_neg hnv]
    try dsimp only
    rw [if_pos hs]
    exact ⟨rfl, rfl⟩
  · unfold standingsDriversHandler
    try dsimp only
    rw [if_neg hnv]
    try dsimp only
    rw [if_pos hs]
    exact ⟨rfl, rfl⟩
  · unfold standingsConstructorsHandler
    try dsimp only
    rw [if_neg hnv]
    try dsimp only
    rw [if_pos hs]
    exact ⟨rfl, rfl⟩

/-- Witness for C4: upstream 404 with an unparsed body, optional fetch in
transport failure. -/
theorem mandatory_non2xx_propagated_witness :
    ((calendarHandler 2024 "2024" (.response 404 none) Fetch.failure).response.status = 404 ∧
      getPath (calendarHandler 2024 "2024" (.response 404 none) Fetch.failure).response.body
        ["error"] = some (Json.str "Erro ao buscar dados da Ergast API")) ∧
    ((driversHandler 2024 "2024" (.response 404 none)).status = 404 ∧
      getPath (driversHandler 2024 "2024" (.response 404 none)).body ["error"]
        = some (Json.str "Erro ao buscar dados dos pilotos")) ∧
    ((constructorsHandler 2024 "2024" (.response 404 none)).status = 404 ∧
      getPath (constructorsHandler 2024 "2024" (.response 404 none)).body ["error"]
        = some (Json.str "Erro ao buscar dados das equipes")) ∧
    ((standingsDriversHandler 2024 "2024" (.response 404 none)).status = 404 ∧
      getPath (standingsDriversHandler 2024 "2024" (.response 404 none)).body ["error"]
        = some (Json.str "Erro ao buscar classificacao de pilotos")) ∧
    ((standingsConstructorsHandler 2024 "2024" (.response 404 none)).status = 404 ∧
      getPath (standingsConstructorsHandler 2024 "2024" (.response 404 none)).body ["error"]
        = some (Json.str "Erro ao buscar classificacao de construtores")) :=
  mandatory_non2xx_propagated 2024 "2024" 404 none Fetch.failure (by decide) (by decide)

/-- C5 counterexample: a well-formed mandatory payload without `MRData`
makes the calendar endpoint answer 500 (the unguarded `mrData.RaceTable`
access throws and is caught by the generic handler), not the claimed 404. -/
theorem calendar_missing_mrdata_is_500 :
    (calendarHandler 2024 "2024" (.response 200 (some (Json.obj [])))
      Fetch.failure).response.status = 500 ∧
    ¬((calendarHandler 2024 "2024" (.response 200 (some (Json.obj [])))
      Fetch.failure).response.status = 404) := by
  constructor
  · rfl
  · decide

/-- C5 (amended): with a 2xx mandatory response, the calendar endpoint
answers 404 with the "no races" error when the container check on a
readable `MRData` value reports no `RaceTable`/`Races`; when the container
check itself throws (in particular when `MRData` is absent or null), the
endpoint answers 500, not 404. -/
theorem calendar_no_data_classification
    (cy : Int) (year : String) (s : Nat) (dataA dataB : Json)
    (mrA mrB : Option Json) (eB : String) (openf1 : Fetch)
    (hvalid : (validateYear cy year).valid = true)
    (hs : statusOk s = true) :
    (jsGet (some dataA) "MRData" = .ok mrA → noRacesCond mrA = .ok true →
      (calendarHandler cy year (.response s (some dataA)) openf1).response.status = 404 ∧
      getPath (calendarHandler cy year (.response s (some dataA)) openf1).response.body
        ["error"] = some (Json.str "Nenhuma corrida encontrada para este ano")) ∧
    (jsGet (some dataB) "MRData" = .ok mrB → noRacesCond mrB = .error eB →
      (calendarHandler cy year (.response s (some dataB)) openf1).response.status = 500 ∧
      ¬((calendarHandler cy year (.response s (some dataB)) openf1).response.status = 404)) := by
  have hns : ¬(statusOk s = false) := by rw [hs]; simp
  have hnv : ¬((validateYear cy year).valid = false) := by rw [hvalid]; simp
  constructor
  · intro hmr hnd
    have hmo : mandatoryCalendarOutcome (.response s (some dataA)) = .noData := by
      unfold mandatoryCalendarOutcome
      dsimp only
      rw [if_neg hns]
      try dsimp only
      rw [hmr]
      try dsimp only
      rw [hnd]
    unfold calendarHandler
    dsimp only
    rw [if_neg hnv, hmo]
    exact ⟨rfl, rfl⟩
  · intro hmr hnd
    have hmo : mandatoryCalendarOutcome (.response s (some dataB)) = .shapeFail eB := by
      unfold mandatoryCalendarOutcome
      dsimp only
      rw [if_neg hns]
      try dsimp only
      rw [hmr]
      try dsimp only
      rw [hnd]
    unfold calendarHandler
    dsimp only
    rw [if_neg hnv, hmo]
    refine ⟨rfl, ?_⟩
    intro hbad
    dsimp only at hbad
    omega

/-- Witness for the amended C5: `MRData` present but empty gives 404;
`MRData` absent gives 500. -/
theorem calendar_no_data_classification_witness :
    ((calendarHandler 2024 "2024"
      (.response 200 (some (Json.obj [("MRData", Json.obj [])])))
      Fetch.failure).response.status = 404 ∧
      getPath (calendarHandler 2024 "2024"
        (.response 200 (some (Json.obj [("MRData", Json.obj [])])))
        Fetch.failure).response.body ["error"]
        = some (Json.str "Nenhuma corrida encontrada para este ano")) ∧
    ((calendarHandler 2024 "2024" (.response 200 (some (Json.obj [])))
      Fetch.failure).response.status = 500 ∧
      ¬((calendarHandler 2024 "2024" (.response 200 (some (Json.obj [])))
        Fetch.failure).response.status = 404)) := by
  obtain ⟨hA, hB⟩ := calendar_no_data_classification 2024 "2024" 200
    (Json.obj [("MRData", Json.obj [])]) (Json.obj [])
    (some (Json.obj [])) none
    ("TypeError: cannot read properties of undefined (reading " ++ "RaceTable" ++ ")")
    Fetch.failure (by decide) (by decide)
  exact ⟨hA rfl rfl, hB rfl rfl⟩

theorem jsGet_ok_nonNullish (v : Option Json) (k : String) (w : Option Json)
    (h : jsGet v k = .ok w) : isNonNullish v = true := by
  match v with
  | none => cases h
  | some .null => cases h
  | some (.bool b) => rfl
  | some (.num n) => rfl
  | some (.str s) => rfl
  | some (.arr xs) => rfl
  | some (.obj fs) => rfl

/-- A race record without a `Circuit`, or with a `Circuit` lacking a
`Location`, makes the shaping callback throw. -/
theorem shapeRace_isError_of_missing_circuit (r : Json)
    (h : jsGet (some r) "Circuit" = .ok none ∨
      ∃ c, jsGet (some r) "Circuit" = .ok c ∧ jsGet c "Location" = .ok none) :
    isError (shapeRace r) = true := by
  have hnnr : isNonNullish (some r) = true := by
    rcases h with h | ⟨c, h, _⟩ <;> exact jsGet_ok_nonNullish (some r) "Circuit" _ h
  rcases h with h | ⟨c, hC, hL⟩
  · unfold shapeRace
    simp only [Bind.bind, Except.bind, jsGet_eq_fieldOf _ _ hnnr]
    rw [show fieldOf (some r) "Circuit" = none from by
      rw [jsGet_eq_fieldOf _ "Circuit" hnnr] at h; exact Except.ok.inj h]
    rfl
  · have hnnc : isNonNullish c = true := jsGet_ok_nonNullish c "Location" _ hL
    unfold shapeRace
    simp only [Bind.bind, Except.bind, jsGet_eq_fieldOf _ _ hnnr]
    rw [show fieldOf (some r) "Circuit" = c from by
      rw [jsGet_eq_fieldOf _ "Circuit" hnnr] at hC; exact Except.ok.inj hC]
    simp only [jsGet_eq_fieldOf _ _ hnnc]
    rw [show fieldOf c "Location" = none from by
      rw [jsGet_eq_fieldOf _ "Location" hnnc] at hL; exact Except.ok.inj hL]
    rfl

/-- C10: a mandatory calendar payload whose race list contains a record
lacking `Circuit` (or `Circuit.Location`) makes the endpoint answer a
500-class internal error — not 404 and not a partial result. -/
theorem calendar_missing_circuit_internal_error
    (cy : Int) (year : String) (s : Nat) (data : Json) (mr : Option Json)
    (xs : List Json) (r : Json) (openf1 : Fetch)
    (hvalid : (validateYear cy year).valid = true)
    (hs : statusOk s = true)
    (hmr : jsGet (some data) "MRData" = .ok mr)
    (hnd : noRacesCond mr = .ok false)
    (hxs : racesArrOf mr = .ok xs)
    (hmem : r ∈ xs)
    (hcirc : jsGet (some r) "Circuit" = .ok none ∨
      ∃ c, jsGet (some r) "Circuit" = .ok c ∧ jsGet c "Location" = .ok none) :
    (calendarHandler cy year (.response s (some data)) openf1).response.status = 500 ∧
    ¬((calendarHandler cy year (.response s (some data)) openf1).response.status = 404) ∧
    getPath (calendarHandler cy year (.response s (some data)) openf1).response.body
      ["error"] = some (Json.str "Erro interno do servidor") := by
  have hise := shapeRace_isError_of_missing_circuit r hcirc
  obtain ⟨er, her⟩ : ∃ e, shapeRace r = .error e := by
    cases hsr : shapeRace r with
    | error e => exact ⟨e, rfl⟩
    | ok v => rw [hsr] at hise; cases hise
  obtain ⟨e2, hmap⟩ := jsMapThrow_error_of_mem shapeRace r er her xs hmem
  have hmo : mandatoryCalendarOutcome (.response s (some data)) = .shapeFail e2 := by
    unfold mandatoryCalendarOutcome
    dsimp only
    rw [if_neg (by rw [hs]; simp)]
    try dsimp only
    rw [hmr]
    try dsimp only
    rw [hnd]
    try dsimp only
    rw [hxs]
    try dsimp only
    rw [hmap]
  unfold calendarHandler
  dsimp only
  rw [if_neg (by rw [hvalid]; simp), hmo]
  refine ⟨rfl, ?_, rfl⟩
  intro hbad
  dsimp only at hbad
  omega

/-- Witness for C10: one race record that is an empty object (so without
`Circuit`) leads to the 500 internal error. -/
theorem calendar_missing_circuit_internal_error_witness :
    (calendarHandler 2024 "2024"
      (.response 200 (some (Json.obj [("MRData", Json.obj [("RaceTable",
        Json.obj [("season", Json.str "2024"),
          ("Races", Json.arr [Json.obj []])])])])))
      Fetch.failure).response.status = 500 ∧
    ¬((calendarHandler 2024 "2024"
      (.response 200 (some (Json.obj [("MRData", Json.obj [("RaceTable",
        Json.obj [("season", Json.str "2024"),
          ("Races", Json.arr [Json.obj []])])])])))
      Fetch.failure).response.status = 404) := by
  obtain ⟨h1, h2, _⟩ := calendar_missing_circuit_internal_error 2024 "2024" 200
    (Json.obj [("MRData", Json.obj [("RaceTable", Json.obj [("season", Json.str "2024"),
      ("Races", Json.arr [Json.obj []])])])])
    (some (Json.obj [("RaceTable", Json.obj [("season", Json.str "2024"),
      ("Races", Json.arr [Json.obj []])])]))
    [Json.obj []] (Json.obj []) Fetch.failure
    (by decide) (by decide) rfl rfl rfl (by simp) (Or.inl rfl)
  exact ⟨h1, h2⟩

-- ### Lookup lemmas for serialised bodies with optional fields
theorem lookup_dropAbsent_ne (a : String) (ov : Option Json)
    (rest : List (String × Option Json)) (k : String) (hne : ¬(a = k)) :
    lookupField (dropAbsent ((a, ov) :: rest)) k = lookupField (dropAbsent rest) k := by
  cases ov <;> simp [dropAbsent, lookupField, hne]

theorem lookup_dropAbsent_hit (a : String) (v : Json)
    (rest : List (String × Option Json)) :
    lookupField (dropAbsent ((a, some v) :: rest)) a = some v := by
  simp [dropAbsent, lookupField]

theorem getPath_obj_single (fs : List (String × Json)) (k : String) :
    getPath (Json.obj fs) [k] = lookupField fs k := rfl

theorem getPath_mkObj_single (L : List (String × Option Json)) (k : String) :
    getPath (mkObj L) [k] = lookupField (dropAbsent L) k :=
  getPath_obj_single (dropAbsent L) k

-- ### C6 machinery: single-source endpoints and absent/empty containers
theorem driversExtract_ok_inv (data : Json) (l : List Json)
    (h : driversExtract data = .ok l) :
    ∃ mr dt, jsGet (some data) "MRData" = .ok mr ∧ jsGet mr "DriverTable" = .ok dt ∧
      jsGet dt "season" = .ok (fieldOf dt "season") := by
  unfold driversExtract at h
  simp only [Bind.bind, Except.bind] at h
  cases hmr : jsGet (some data) "MRData" with
  | error e => rw [hmr] at h; cases h
  | ok mr =>
    rw [hmr] at h
    dsimp only at h
    cases hdt : jsGet mr "DriverTable" with
    | error e => rw [hdt] at h; cases h
    | ok dt =>
      rw [hdt] at h
      dsimp only at h
      cases hdv : jsGet dt "Drivers" with
      | error e => rw [hdv] at h; cases h
      | ok dv =>
        exact ⟨mr, dt, rfl, hdt,
          jsGet_eq_fieldOf dt "season" (jsGet_ok_nonNullish dt "Drivers" dv hdv)⟩

theorem constructorsExtract_ok_inv (data : Json) (l : List Json)
    (h : constructorsExtract data = .ok l) :
    ∃ mr ct, jsGet (some data) "MRData" = .ok mr ∧ jsGet mr "ConstructorTable" = .ok ct ∧
      jsGet ct "season" = .ok (fieldOf ct "season") := by
  unfold constructorsExtract at h
  simp only [Bind.bind, Except.bind] at h
  cases hmr : jsGet (some data) "MRData" with
  | error e => rw [hmr] at h; cases h
  | ok mr =>
    rw [hmr] at h
    dsimp only at h
    cases hct : jsGet mr "ConstructorTable" with
    | error e => rw [hct] at h; cases h
    | ok ct =>
      rw [hct] at h
      dsimp only at h
      cases hcv : jsGet ct "Constructors" with
      | error e => rw [hcv] at h; cases h
      | ok cv =>
        exact ⟨mr, ct, rfl, hct,
          jsGet_eq_fieldOf ct "season" (jsGet_ok_nonNullish ct "Constructors" cv hcv)⟩

/-- C6 counterexample: a drivers payload whose `Drivers` container is
present but empty produces HTTP 200 with `totalDrivers` 0 — not the
404-class "no data" error the claim requires. -/
theorem drivers_empty_container_not_404 :
    (driversHandler 2024 "2024" (.response 200 (some (Json.obj [("MRData",
      Json.obj [("DriverTable", Json.obj [("season", Json.str "2024"),
        ("Drivers", Json.arr [])])])])))).status = 200 ∧
    ¬((driversHandler 2024 "2024" (.response 200 (some (Json.obj [("MRData",
      Json.obj [("DriverTable", Json.obj [("season", Json.str "2024"),
        ("Drivers", Json.arr [])])])])))).status = 404) := by
  constructor
  · rfl
  · decide

/-- C6 (amended): the 404 "no data" classification only exists on the
standings endpoints (absent or empty `StandingsLists`). For drivers and
constructors an absent container makes the unguarded access chain throw,
producing a 500, and an empty container produces a 200 response with a
zero count. -/
theorem single_source_no_data_classification
    (cy : Int) (year : String) (s : Nat)
    (dD dD2 dC dC2 dS dS2 : Json) (eD eC : String)
    (lD lC : List Json) (slS slS2 : Option Json)
    (hvalid : (validateYear cy year).valid = true)
    (hs : statusOk s = true) :
    (driversExtract dD = .error eD →
      (driversHandler cy year (.response s (some dD))).status = 500) ∧
    (driversExtract dD2 = .ok lD →
      (driversHandler cy year (.response s (some dD2))).status = 200 ∧
      getPath (driversHandler cy year (.response s (some dD2))).body ["totalDrivers"]
        = some (Json.num lD.length)) ∧
    (constructorsExtract dC = .error eC →
      (constructorsHandler cy year (.response s (some dC))).status = 500) ∧
    (constructorsExtract dC2 = .ok lC →
      (constructorsHandler cy year (.response s (some dC2))).status = 200 ∧
      getPath (constructorsHandler cy year (.response s (some dC2))).body
        ["totalConstructors"] = some (Json.num lC.length)) ∧
    (standingsListsOf dS = .ok slS → (truthy slS = false ∨ jsLengthIsZero slS = true) →
      (standingsDriversHandler cy year (.response s (some dS))).status = 404) ∧
    (standingsListsOf dS2 = .ok slS2 → (truthy slS2 = false ∨ jsLengthIsZero slS2 = true) →
      (standingsConstructorsHandler cy year (.response s (some dS2))).status = 404) := by
  have hnv : ¬((validateYear cy year).valid = false) := by rw [hvalid]; simp
  have hns : ¬(statusOk s = false) := by rw [hs]; simp
  refine ⟨?_, ?_, ?_, ?_, ?_, ?_⟩
  · intro hex
    unfold driversHandler
    try dsimp only
    rw [if_neg hnv]
    try dsimp only
    rw [if_neg hns]
    try dsimp only
    simp only [Bind.bind, Except.bind]
    rw [hex]
  · intro hex
    obtain ⟨mr, dt, hmr, hdt, hsv⟩ := driversExtract_ok_inv dD2 lD hex
    unfold driversHandler
    try dsimp only
    rw [if_neg hnv]
    try dsimp only
    rw [if_neg hns]
    try dsimp only
    simp only [Bind.bind, Except.bind]
    rw [hex]
    try dsimp only
    rw [hmr]
    try dsimp only
    rw [hdt]
    try dsimp only
    rw [hsv]
    simp only [pure, Except.pure]
    try dsimp only
    refine ⟨by trivial, ?_⟩
    first
      | rw [getPath_mkObj_single]
      | rw [getPath_obj_single]
    rw [lookup_dropAbsent_ne "season" (fieldOf dt "season") _ "totalDrivers" (by decide)]
    exact lookup_dropAbsent_hit "totalDrivers" (Json.num lD.length) _
  · intro hex
    unfold constructorsHandler
    try dsimp only
    rw [if_neg hnv]
    try dsimp only
    rw [if_neg hns]
    try dsimp only
    simp only [Bind.bind, Except.bind]
    rw [hex]
  · intro hex
    obtain ⟨mr, ct, hmr, hct, hsv⟩ := constructorsExtract_ok_inv dC2 lC hex
    unfold constructorsHandler
    try dsimp only
    rw [if_neg hnv]
    try dsimp only
    rw [if_neg hns]
    try dsimp only
    simp only [Bind.bind, Except.bind]
    rw [hex]
    try dsimp only
    rw [hmr]
    try dsimp only
    rw [hct]
    try dsimp only
    rw [hsv]
    simp only [pure, Except.pure]
    try dsimp only
    refine ⟨by trivial, ?_⟩
    first
      | rw [getPath_mkObj_single]
      | rw [getPath_obj_single]
    rw [lookup_dropAbsent_ne "season" (fieldOf ct "season") _ "totalConstructors" (by decide)]
    exact lookup_dropAbsent_hit "totalConstructors" (Json.num lC.length) _
  · intro hsl hcond
    have hc : (!truthy slS || jsLengthIsZero slS) = true := by
      rcases hcond with h | h <;> simp [h]
    unfold standingsDriversHandler
    try dsimp only
    rw [if_neg hnv]
    try dsimp only
    rw [if_neg hns]
    try dsimp only
    rw [hsl]
    try dsimp only
    rw [if_pos hc]
  · intro hsl hcond
    have hc : (!truthy slS2 || jsLengthIsZero slS2) = true := by
      rcases hcond with h | h <;> simp [h]
    unfold standingsConstructorsHandler
    try dsimp only
    rw [if_neg hnv]
    try dsimp only
    rw [if_neg hns]
    try dsimp only
    rw [hsl]
    try dsimp only
    rw [if_pos hc]

/-- Witness for the amended C6: absent drivers container gives 500, empty
drivers container gives 200 with zero drivers, absent constructors
container gives 500, empty constructors container gives 200 with zero
constructors, and empty `StandingsLists` gives 404 on both standings
endpoints. -/
theorem single_source_no_data_classification_witness :
    (driversHandler 2024 "2024" (.response 200 (some (Json.obj [("MRData",
      Json.obj [])])))).status = 500 ∧
    ((driversHandler 2024 "2024" (.response 200 (some (Json.obj [("MRData",
      Json.obj [("DriverTable", Json.obj [("season", Json.str "2020"),
        ("Drivers", Json.arr [])])])])))).status = 200 ∧
      getPath (driversHandler 2024 "2024" (.response 200 (some (Json.obj [("MRData",
        Json.obj [("DriverTable", Json.obj [("season", Json.str "2020"),
          ("Drivers", Json.arr [])])])])))).body ["totalDrivers"]
        = some (Json.num (List.length ([] : List Json)))) ∧
    (constructorsHandler 2024 "2024" (.response 200 (some (Json.obj [("MRData",
      Json.obj [])])))).status = 500 ∧
    ((constructorsHandler 2024 "2024" (.response 200 (some (Json.obj [("MRData",
      Json.obj [("ConstructorTable", Json.obj [("season", Json.str "2020"),
        ("Constructors", Json.arr [])])])])))).status = 200 ∧
      getPath (constructorsHandler 2024 "2024" (.response 200 (some (Json.obj [("MRData",
        Json.obj [("ConstructorTable", Json.obj [("season", Json.str "2020"),
          ("Constructors", Json.arr [])])])])))).body ["totalConstructors"]
        = some (Json.num (List.length ([] : List Json)))) ∧
    (standingsDriversHandler 2024 "2022" (.response 200 (some (Json.obj [("MRData",
      Json.obj [("StandingsTable", Json.obj [("StandingsLists",
        Json.arr [])])])])))).status = 404 ∧
    (standingsConstructorsHandler 2024 "2022" (.response 200 (some (Json.obj [("MRData",
      Json.obj [("StandingsTable", Json.obj [("StandingsLists",
        Json.arr [])])])])))).status = 404 := by
  obtain ⟨h1, h2, h3, h4, _, _⟩ := single_source_no_data_classification 2024 "2024" 200
    (Json.obj [("MRData", Json.obj [])])
    (Json.obj [("MRData", Json.obj [("DriverTable", Json.obj [("season", Json.str "2020"),
      ("Drivers", Json.arr [])])])])
    (Json.obj [("MRData", Json.obj [])])
    (Json.obj [("MRData", Json.obj [("ConstructorTable", Json.obj [("season", Json.str "2020"),
      ("Constructors", Json.arr [])])])])
    (Json.obj []) (Json.obj [])
    ("TypeError: cannot read properties of undefined (reading " ++ "Drivers" ++ ")")
    ("TypeError: cannot read properties of undefined (reading " ++ "Constructors" ++ ")")
    [] [] none none (by decide) (by decide)
  obtain ⟨_, _, _, _, h5, h6⟩ := single_source_no_data_classification 2024 "2022" 200
    (Json.obj []) (Json.obj []) (Json.obj []) (Json.obj [])
    (Json.obj [("MRData", Json.obj [("StandingsTable", Json.obj [("StandingsLists",
      Json.arr [])])])])
    (Json.obj [("MRData", Json.obj [("StandingsTable", Json.obj [("StandingsLists",
      Json.arr [])])])])
    "e" "e2" [] [] (some (Json.arr [])) (some (Json.arr []))
    (by decide) (by decide)
  exact ⟨h1 rfl, h2 rfl, h3 rfl, h4 rfl,
    h5 rfl (Or.inr (by decide)), h6 rfl (Or.inr (by decide))⟩

/-- C8: both standings endpoints answer 404 when `StandingsLists` is
absent or empty, and otherwise their whole response is computed from the
first element of `StandingsLists` alone (the tail is never consulted). -/
theorem standings_first_list_only
    (cy : Int) (year : String) (s : Nat)
    (dA dA2 dB dB2 : Json) (slA slA2 : Option Json) (x x2 : Json)
    (rest rest2 : List Json)
    (hvalid : (validateYear cy year).valid = true)
    (hs : statusOk s = true) :
    (standingsListsOf dA = .ok slA → (truthy slA = false ∨ jsLengthIsZero slA = true) →
      (standingsDriversHandler cy year (.response s (some dA))).status = 404) ∧
    (standingsListsOf dA2 = .ok slA2 → (truthy slA2 = false ∨ jsLengthIsZero slA2 = true) →
      (standingsConstructorsHandler cy year (.response s (some dA2))).status = 404) ∧
    (standingsListsOf dB = .ok (some (Json.arr (x :: rest))) →
      standingsDriversHandler cy year (.response s (some dB)) =
        (match driverStandingsAssemble (some x) with
          | .ok b => (⟨200, b⟩ : HttpResponse)
          | .error m => (⟨500, internalErrorBody m⟩ : HttpResponse))) ∧
    (standingsListsOf dB2 = .ok (some (Json.arr (x2 :: rest2))) →
      standingsConstructorsHandler cy year (.response s (some dB2)) =
        (match constructorStandingsAssemble (some x2) with
          | .ok b => (⟨200, b⟩ : HttpResponse)
          | .error m => (⟨500, internalErrorBody m⟩ : HttpResponse))) := by
  have hnv : ¬((validateYear cy year).valid = false) := by rw [hvalid]; simp
  have hns : ¬(statusOk s = false) := by rw [hs]; simp
  refine ⟨?_, ?_, ?_, ?_⟩
  · intro hsl hcond
    have hc : (!truthy slA || jsLengthIsZero slA) = true := by
      rcases hcond with h | h <;> simp [h]
    unfold standingsDriversHandler
    try dsimp only
    rw [if_neg hnv]
    try dsimp only
    rw [if_neg hns]
    try dsimp only
    rw [hsl]
    try dsimp only
    rw [if_pos hc]
  · intro hsl hcond
    have hc : (!truthy slA2 || jsLengthIsZero slA2) = true := by
      rcases hcond with h | h <;> simp [h]
    unfold standingsConstructorsHandler
    try dsimp only
    rw [if_neg hnv]
    try dsimp only
    rw [if_neg hns]
    try dsimp only
    rw [hsl]
    try dsimp only
    rw [if_pos hc]
  · intro hsl
    have hc : ¬((!truthy (some (Json.arr (x :: rest))) ||
        jsLengthIsZero (some (Json.arr (x :: rest)))) = true) := by
      simp [truthy, jsLengthIsZero]
    unfold standingsDriversHandler
    try dsimp only
    rw [if_neg hnv]
    try dsimp only
    rw [if_neg hns]
    try dsimp only
    rw [hsl]
    try dsimp only
    rw [if_neg hc]
    rfl
  · intro hsl
    have hc : ¬((!truthy (some (Json.arr (x2 :: rest2))) ||
        jsLengthIsZero (some (Json.arr (x2 :: rest2)))) = true) := by
      simp [truthy, jsLengthIsZero]
    unfold standingsConstructorsHandler
    try dsimp only
    rw [if_neg hnv]
    try dsimp only
    rw [if_neg hns]
    try dsimp only
    rw [hsl]
    try dsimp only
    rw [if_neg hc]
    rfl

/-- Witness for C8: empty `StandingsLists` gives 404 on the drivers
standings; with two standings lists the response is assembled from the
first alone, on both endpoints. -/
theorem standings_first_list_only_witness :
    (standingsDriversHandler 2024 "2022"
      (.response 200 (some (standingsPayload [])))).status = 404 ∧
    standingsDriversHandler 2024 "2023"
      (.response 200 (some (standingsPayload [c8FirstDrivers, c8SecondDrivers]))) =
      (match driverStandingsAssemble (some c8FirstDrivers) with
        | .ok b => (⟨200, b⟩ : HttpResponse)
        | .error m => (⟨500, internalErrorBody m⟩ : HttpResponse)) ∧
    standingsConstructorsHandler 2024 "2023"
      (.response 200 (some (standingsPayload [c8FirstConstructors, c8SecondConstructors]))) =
      (match constructorStandingsAssemble (some c8FirstConstructors) with
        | .ok b => (⟨200, b⟩ : HttpResponse)
        | .error m => (⟨500, internalErrorBody m⟩ : HttpResponse)) := by
  obtain ⟨h404, _, _, _⟩ := standings_first_list_only 2024 "2022" 200
    (standingsPayload []) (Json.obj []) (Json.obj []) (Json.obj [])
    (some (Json.arr [])) none (Json.obj []) (Json.obj []) [] []
    (by decide) (by decide)
  obtain ⟨_, _, hfirst, hfirst2⟩ := standings_first_list_only 2024 "2023" 200
    (Json.obj []) (Json.obj [])
    (standingsPayload [c8FirstDrivers, c8SecondDrivers])
    (standingsPayload [c8FirstConstructors, c8SecondConstructors])
    none none c8FirstDrivers c8FirstConstructors
    [c8SecondDrivers] [c8SecondConstructors]
    (by decide) (by decide)
  exact ⟨h404 rfl (Or.inr (by decide)), hfirst rfl, hfirst2 rfl⟩

theorem getPath_mkObj_cons (L : List (String × Option Json)) (k : String)
    (ks : List String) :
    getPath (mkObj L) (k :: ks) =
      List.foldl getStep (lookupField (dropAbsent L) k) ks := rfl

/-- C7 counterexample: a session field that is present with the falsy
value `false` is not preserved — `x || null` replaces it with `null`, so
"every session field present appears with its original value preserved"
fails. -/
theorem session_false_value_not_preserved :
    jsGet (some c7Race) "FirstPractice" = .ok (some (Json.bool false)) ∧
    shapedField (shapeRace c7Race) ["sessions", "firstPractice"] = some (some Json.null) ∧
    ¬(Json.null = Json.bool false) := by
  refine ⟨rfl, rfl, ?_⟩
  intro h
  cases h

/-- C7 (amended): in a successfully shaped race the five session keys and
the top-level `time` key are always present; a truthy upstream value is
preserved unchanged, and a missing or falsy one (absent, null, blank — but
also `false` or `0`) becomes an explicit `null`. -/
theorem shapeRace_session_fields_spec
    (race : Json) (timeV circuitV locV fpV spV tpV qV sprV : Option Json)
    (hT : jsGet (some race) "time" = .ok timeV)
    (hFP : jsGet (some race) "FirstPractice" = .ok fpV)
    (hSP : jsGet (some race) "SecondPractice" = .ok spV)
    (hTP : jsGet (some race) "ThirdPractice" = .ok tpV)
    (hQ : jsGet (some race) "Qualifying" = .ok qV)
    (hSpr : jsGet (some race) "Sprint" = .ok sprV)
    (hC : jsGet (some race) "Circuit" = .ok circuitV)
    (hL : jsGet circuitV "Location" = .ok locV)
    (hLn : isNonNullish locV = true) :
    shapedField (shapeRace race) ["sessions", "firstPractice"]
      = some (some (if truthy fpV then fpV.getD Json.null else Json.null)) ∧
    shapedField (shapeRace race) ["sessions", "secondPractice"]
      = some (some (if truthy spV then spV.getD Json.null else Json.null)) ∧
    shapedField (shapeRace race) ["sessions", "thirdPractice"]
      = some (some (if truthy tpV then tpV.getD Json.null else Json.null)) ∧
    shapedField (shapeRace race) ["sessions", "qualifying"]
      = some (some (if truthy qV then qV.getD Json.null else Json.null)) ∧
    shapedField (shapeRace race) ["sessions", "sprint"]
      = some (some (if truthy sprV then sprV.getD Json.null else Json.null)) ∧
    shapedField (shapeRace race) ["time"]
      = some (some (if truthy timeV then timeV.getD Json.null else Json.null)) := by
  have hnnr : isNonNullish (some race) = true :=
    jsGet_ok_nonNullish (some race) "time" timeV hT
  have hnnc : isNonNullish circuitV = true :=
    jsGet_ok_nonNullish circuitV "Location" locV hL
  have eT : fieldOf (some race) "time" = timeV := by
    rw [jsGet_eq_fieldOf _ _ hnnr] at hT; exact Except.ok.inj hT
  have eFP : fieldOf (some race) "FirstPractice" = fpV := by
    rw [jsGet_eq_fieldOf _ _ hnnr] at hFP; exact Except.ok.inj hFP
  have eSP : fieldOf (some race) "SecondPractice" = spV := by
    rw [jsGet_eq_fieldOf _ _ hnnr] at hSP; exact Except.ok.inj hSP
  have eTP : fieldOf (some race) "ThirdPractice" = tpV := by
    rw [jsGet_eq_fieldOf _ _ hnnr] at hTP; exact Except.ok.inj hTP
  have eQ : fieldOf (some race) "Qualifying" = qV := by
    rw [jsGet_eq_fieldOf _ _ hnnr] at hQ; exact Except.ok.inj hQ
  have eSpr : fieldOf (some race) "Sprint" = sprV := by
    rw [jsGet_eq_fieldOf _ _ hnnr] at hSpr; exact Except.ok.inj hSpr
  have eC : fieldOf (some race) "Circuit" = circuitV := by
    rw [jsGet_eq_fieldOf _ _ hnnr] at hC; exact Except.ok.inj hC
  have eL : fieldOf circuitV "Location" = locV := by
    rw [jsGet_eq_fieldOf _ _ hnnc] at hL; exact Except.ok.inj hL
  have hshape : shapeRace race = .ok (mkObj [
      ("season", fieldOf (some race) "season"),
      ("round", fieldOf (some race) "round"),
      ("url", fieldOf (some race) "url"),
      ("raceName", fieldOf (some race) "raceName"),
      ("date", fieldOf (some race) "date"),
      ("time", some (jsOrNull timeV)),
      ("circuit", some (mkObj [
        ("circuitId", fieldOf circuitV "circuitId"),
        ("url", fieldOf circuitV "url"),
        ("circuitName", fieldOf circuitV "circuitName"),
        ("location", some (mkObj [
          ("lat", fieldOf locV "lat"), ("long", fieldOf locV "long"),
          ("locality", fieldOf locV "locality"), ("country", fieldOf locV "country")]))])),
      ("sessions", some (Json.obj [
        ("firstPractice", jsOrNull fpV), ("secondPractice", jsOrNull spV),
        ("thirdPractice", jsOrNull tpV), ("qualifying", jsOrNull qV),
        ("sprint", jsOrNull sprV)]))]) := by
    unfold shapeRace
    simp only [Bind.bind, Except.bind, jsGet_eq_fieldOf _ _ hnnr, eC,
      jsGet_eq_fieldOf _ _ hnnc, eL, jsGet_eq_fieldOf _ _ hLn,
      eT, eFP, eSP, eTP, eQ, eSpr]
    rfl
  refine ⟨?_, ?_, ?_, ?_, ?_, ?_⟩
  · rw [hshape]
    dsimp only [shapedField]
    rw [getPath_mkObj_cons,
      lookup_dropAbsent_ne "season" _ _ "sessions" (by decide),
      lookup_dropAbsent_ne "round" _ _ "sessions" (by decide),
      lookup_dropAbsent_ne "url" _ _ "sessions" (by decide),
      lookup_dropAbsent_ne "raceName" _ _ "sessions" (by decide),
      lookup_dropAbsent_ne "date" _ _ "sessions" (by decide),
      lookup_dropAbsent_ne "time" _ _ "sessions" (by decide),
      lookup_dropAbsent_ne "circuit" _ _ "sessions" (by decide),
      lookup_dropAbsent_hit "sessions" _ _]
    rfl
  · rw [hshape]
    dsimp only [shapedField]
    rw [getPath_mkObj_cons,
      lookup_dropAbsent_ne "season" _ _ "sessions" (by decide),
      lookup_dropAbsent_ne "round" _ _ "sessions" (by decide),
      lookup_dropAbsent_ne "url" _ _ "sessions" (by decide),
      lookup_dropAbsent_ne "raceName" _ _ "sessions" (by decide),
      lookup_dropAbsent_ne "date" _ _ "sessions" (by decide),
      lookup_dropAbsent_ne "time" _ _ "sessions" (by decide),
      lookup_dropAbsent_ne "circuit" _ _ "sessions" (by decide),
      lookup_dropAbsent_hit "sessions" _ _]
    rfl
  · rw [hshape]
    dsimp only [shapedField]
    rw [getPath_mkObj_cons,
      lookup_dropAbsent_ne "season" _ _ "sessions" (by decide),
      lookup_dropAbsent_ne "round" _ _ "sessions" (by decide),
      lookup_dropAbsent_ne "url" _ _ "sessions" (by decide),
      lookup_dropAbsent_ne "raceName" _ _ "sessions" (by decide),
      lookup_dropAbsent_ne "date" _ _ "sessions" (by decide),
      lookup_dropAbsent_ne "time" _ _ "sessions" (by decide),
      lookup_dropAbsent_ne "circuit" _ _ "sessions" (by decide),
      lookup_dropAbsent_hit "sessions" _ _]
    rfl
  · rw [hshape]
    dsimp only [shapedField]
    rw [getPath_mkObj_cons,
      lookup_dropAbsent_ne "season" _ _ "sessions" (by decide),
      lookup_dropAbsent_ne "round" _ _ "sessions" (by decide),
      lookup_dropAbsent_ne "url" _ _ "sessions" (by decide),
      lookup_dropAbsent_ne "raceName" _ _ "sessions" (by decide),
      lookup_dropAbsent_ne "date" _ _ "sessions" (by decide),
      lookup_dropAbsent_ne "time" _ _ "sessions" (by decide),
      lookup_dropAbsent_ne "circuit" _ _ "sessions" (by decide),
      lookup_dropAbsent_hit "sessions" _ _]
    rfl
  · rw [hshape]
    dsimp only [shapedField]
    rw [getPath_mkObj_cons,
      lookup_dropAbsent_ne "season" _ _ "sessions" (by decide),
      lookup_dropAbsent_ne "round" _ _ "sessions" (by decide),
      lookup_dropAbsent_ne "url" _ _ "sessions" (by decide),
      lookup_dropAbsent_ne "raceName" _ _ "sessions" (by decide),
      lookup_dropAbsent_ne "date" _ _ "sessions" (by decide),
      lookup_dropAbsent_ne "time" _ _ "sessions" (by decide),
      lookup_dropAbsent_ne "circuit" _ _ "sessions" (by decide),
      lookup_dropAbsent_hit "sessions" _ _]
    rfl
  · rw [hshape]
    dsimp only [shapedField]
    rw [getPath_mkObj_single,
      lookup_dropAbsent_ne "season" _ _ "time" (by decide),
      lookup_dropAbsent_ne "round" _ _ "time" (by decide),
      lookup_dropAbsent_ne "url" _ _ "time" (by decide),
      lookup_dropAbsent_ne "raceName" _ _ "time" (by decide),
      lookup_dropAbsent_ne "date" _ _ "time" (by decide),
      lookup_dropAbsent_hit "time" _ _]
    rfl

/-- Witness for the amended C7: a present truthy session value is
preserved, while the absent `Sprint` and the absent top-level `time`
appear as explicit `null`. -/
theorem shapeRace_session_fields_spec_witness :
    shapedField (shapeRace c7FullRace) ["sessions", "firstPractice"]
      = some (some (Json.obj [("date", Json.str "fp")])) ∧
    shapedField (shapeRace c7FullRace) ["sessions", "sprint"] = some (some Json.null) ∧
    shapedField (shapeRace c7FullRace) ["time"] = some (some Json.null) := by
  obtain ⟨h1, _, _, _, h5, h6⟩ := shapeRace_session_fields_spec c7FullRace
    _ _ _ _ _ _ _ _ rfl rfl rfl rfl rfl rfl rfl rfl (by decide)
  exact ⟨h1, h5, h6⟩
